import Mathlib

/-!
Verification of the capability-address codec, batched retype and error
decoder of the robigalia `rust-sel4` library, as a shallow embedding.

Machine words (`seL4_Word`, `seL4_CPtr`, `usize`) are embedded as `Nat`
together with the word width `w` in bits (32 or 64 on the supported
targets), reducing modulo `2 ^ w` exactly where the Rust code's wrapping
operations do.  Rust's `wrapping_shl`/`wrapping_shr` mask the shift amount
by the type's bit count, so the embedded shift amount is taken `% w`.
-/

namespace Sel4

/-- Rust `wrapping_shl` on a `w`-bit word: the shift amount is masked to
`% w`, and the result reduced to the word width. -/
def wshl (w x n : Nat) : Nat := (x <<< (n % w)) % 2 ^ w

/-- Rust `wrapping_shr` on a `w`-bit word: the shift amount is masked to
`% w`. -/
def wshr (w x n : Nat) : Nat := x >>> (n % w)

/-- The mask `one.wrapping_shl(n).wrapping_sub(1)` that `decode`/`encode`
build for an `n`-bit field (`n` effectively taken `% w`). -/
def wmask (w n : Nat) : Nat := wshl w 1 n - 1

/-- The `leftover_bits` computation of `CNodeInfo::decode`/`encode`, exactly
as the source writes it: `size_of::<seL4_Word>() * 8` minus `prefix_bits`,
minus `guard_bits`, minus `prefix_bits` **again** (the source subtracts
`prefix_bits` twice and never subtracts `radix_bits`), with `usize`
`wrapping_sub` semantics (`usize` has the same width `w` as `seL4_Word` on
the supported targets). -/
def leftoverBits (w prefix_bits guard_bits : Nat) : Nat :=
  (((w : Int) - prefix_bits - guard_bits - prefix_bits).emod (2 ^ w)).toNat

/-- `CNodeInfo` of `cspace.rs`: the shape of one CNode table level. -/
structure CNodeInfo where
  guard_val : Nat
  radix_bits : Nat
  guard_bits : Nat
  prefix_bits : Nat
  deriving DecidableEq, Repr

/-- `DecodedCPtr` of `cspace.rs`.  The source's field `prefix` is called
`pfx` here (`prefix` is reserved in Lean); the other fields keep their
names. -/
structure DecodedCPtr where
  pfx : Nat
  guard : Nat
  radix : Nat
  leftover : Nat
  deriving DecidableEq, Repr

/-- `CNodeInfo::decode` of `cspace.rs`, line for line: mask off the low
`leftover_bits` bits, shift; mask off `radix_bits` bits, shift; mask off
`guard_bits` bits, shift; the rest is the prefix. -/
def CNodeInfo.decode (w : Nat) (info : CNodeInfo) (cptr : Nat) : DecodedCPtr :=
  let lb := leftoverBits w info.prefix_bits info.guard_bits
  let leftover := cptr &&& wmask w lb
  let c1 := wshr w cptr lb
  let radix := c1 &&& wmask w info.radix_bits
  let c2 := wshr w c1 info.radix_bits
  let guard := c2 &&& wmask w info.guard_bits
  let c3 := wshr w c2 info.guard_bits
  { pfx := c3, guard := guard, radix := radix, leftover := leftover }

/-- `CNodeInfo::encode` of `cspace.rs`, line for line.  Note the final
shift before OR-ing in the leftover field is by `prefix_bits`, exactly as
in the source. -/
def CNodeInfo.encode (w : Nat) (info : CNodeInfo) (d : DecodedCPtr) : Nat :=
  let lb := leftoverBits w info.prefix_bits info.guard_bits
  let r1 := d.pfx &&& wmask w info.prefix_bits
  let r2 := wshl w r1 info.guard_bits
  let r3 := r2 ||| (d.guard &&& wmask w info.guard_bits)
  let r4 := wshl w r3 info.radix_bits
  let r5 := r4 ||| (d.radix &&& wmask w info.radix_bits)
  let r6 := wshl w r5 info.prefix_bits
  r6 ||| (d.leftover &&& wmask w lb)

/-- The address split exactly as the specification's words describe it
(written for comparison with `CNodeInfo.decode`, which is taken from the
source): `leftover_bits = word_bits - prefix_bits - guard_bits -
radix_bits`; leftover is the low `leftover_bits` bits, radix the next
`radix_bits` bits, guard the next `guard_bits` bits, prefix the remaining
high bits. -/
def decodeSpec (w : Nat) (info : CNodeInfo) (cptr : Nat) : DecodedCPtr :=
  let lb := w - info.prefix_bits - info.guard_bits - info.radix_bits
  { pfx := cptr >>> (lb + info.radix_bits + info.guard_bits)
    guard := (cptr >>> (lb + info.radix_bits)) &&& (2 ^ info.guard_bits - 1)
    radix := (cptr >>> lb) &&& (2 ^ info.radix_bits - 1)
    leftover := cptr &&& (2 ^ lb - 1) }

/-- `SlotRef` of `cspace.rs`; `root` is the CNode's capability pointer. -/
structure SlotRef where
  root : Nat
  cptr : Nat
  depth : Nat
  deriving DecidableEq, Repr

/-- `Window` of `cspace.rs`. -/
structure Window where
  cnode : SlotRef
  first_slot_idx : Nat
  num_slots : Nat
  deriving DecidableEq, Repr

/-- `Window::cptr_to` of `cspace.rs`: `None` when `i >= num_slots`,
otherwise the encoding of prefix `cnode.cptr`, guard `guard_val`, radix
`first_slot_idx.wrapping_add(i)` and leftover `0`. -/
def Window.cptr_to (w : Nat) (win : Window) (info : CNodeInfo) (i : Nat) : Option Nat :=
  if i ≥ win.num_slots then none
  else some (info.encode w
    { pfx := win.cnode.cptr
      guard := info.guard_val
      radix := (win.first_slot_idx + i) % 2 ^ w
      leftover := 0 })

/-- `GoOn` of `lib.rs`: what an `Error` tells the caller to do next. -/
inductive GoOn where
  | CheckIPCBuf
  | TooMuchData
  | TooManyCaps
  deriving DecidableEq, Repr

/-- `Error` of `lib.rs`: a newtype around `GoOn`. -/
structure Error where
  goOn : GoOn
  deriving DecidableEq, Repr

/-- One `seL4_Untyped_Retype` invocation with the arguments the `create`
loop of `lib.rs` passes, in order. -/
structure RetypeCall where
  untyped : Nat
  objtag : Nat
  size_bits : Nat
  root : Nat
  node_index : Nat
  node_depth : Nat
  node_offset : Nat
  num_objects : Nat
  deriving DecidableEq, Repr

/-- Result of `create`: `Ok(())` or the `Err` the `errcheck` macros build. -/
inductive CreateResult where
  | ok
  | err (e : GoOn)
  deriving DecidableEq, Repr

/-- `CONFIG_RETYPE_FAN_OUT_LIMIT` of `lib.rs`. -/
def CONFIG_RETYPE_FAN_OUT_LIMIT : Nat := 256

/-- The body of `Allocatable::create` from the `cap_wrapper!` macro of
`lib.rs`, with the kernel abstracted as `sys`, the status word the `k`-th
`seL4_Untyped_Retype` call returns (`0` is success).  Returns the list of
retype calls issued, in order, and the function's result.  `first` is the
current `dest.first_slot_idx` (a `usize`, so `+= 256` wraps modulo
`2 ^ w`), `num` the current `dest.num_slots`, `k` the number of calls
already made.  The loop body is `errcheck_noreturn!`: the call is issued,
then a nonzero status returns `Err(Error(GoOn::CheckIPCBuf))` at once; the
final call is `errcheck!`. -/
def createFrom (w : Nat) (sys : Nat → Nat) (untyped objtag size_bits root cptr depth : Nat)
    (first num k : Nat) : List RetypeCall × CreateResult :=
  if h : CONFIG_RETYPE_FAN_OUT_LIMIT < num then
    let c : RetypeCall :=
      ⟨untyped, objtag, size_bits, root, cptr, depth, first, CONFIG_RETYPE_FAN_OUT_LIMIT⟩
    if sys k ≠ 0 then ([c], .err .CheckIPCBuf)
    else
      let rest := createFrom w sys untyped objtag size_bits root cptr depth
        ((first + CONFIG_RETYPE_FAN_OUT_LIMIT) % 2 ^ w) (num - CONFIG_RETYPE_FAN_OUT_LIMIT) (k + 1)
      (c :: rest.1, rest.2)
  else if 0 < num then
    let c : RetypeCall := ⟨untyped, objtag, size_bits, root, cptr, depth, first, num⟩
    if sys k = 0 then ([c], .ok) else ([c], .err .CheckIPCBuf)
  else ([], .ok)
termination_by num
decreasing_by simp [CONFIG_RETYPE_FAN_OUT_LIMIT] at h ⊢; omega

/-- `Allocatable::create` of `lib.rs` applied to a `Window`. -/
def create (w : Nat) (sys : Nat → Nat) (untyped objtag size_bits : Nat) (dest : Window) :
    List RetypeCall × CreateResult :=
  createFrom w sys untyped objtag size_bits dest.cnode.root dest.cnode.cptr dest.cnode.depth
    dest.first_slot_idx dest.num_slots 0

/-- Modelled from the spec: the `seL4_Error` labels come from the external
`sel4-sys` crate, which is not part of this repository.  The spec's
taxonomy (§3, §4.5, §7) lists the kernel error kinds in order with
`NoError` first and `NotEnoughMemory` last, which is the kernel's enum
`seL4_NoError = 0 .. seL4_NotEnoughMemory = 10`. -/
def seL4_NoError : Nat := 0

def seL4_InvalidArgument : Nat := 1

def seL4_InvalidCapability : Nat := 2

def seL4_IllegalOperation : Nat := 3

def seL4_RangeError : Nat := 4

def seL4_AlignmentError : Nat := 5

def seL4_FailedLookup : Nat := 6

def seL4_TruncatedMessage : Nat := 7

def seL4_DeleteFirst : Nat := 8

def seL4_RevokeFirst : Nat := 9

def seL4_NotEnoughMemory : Nat := 10

/-- Modelled from the spec: the `seL4_LookupFailureType` labels of the
external `sel4-sys` crate, in the nested-taxonomy order of §4.5 item 4,
with the no-failure value first: `seL4_NoFailure = 0 ..
seL4_GuardMismatch = 4`. -/
def seL4_NoFailure : Nat := 0

def seL4_InvalidRoot : Nat := 1

def seL4_MissingCapability : Nat := 2

def seL4_DepthMismatch : Nat := 3

def seL4_GuardMismatch : Nat := 4

/-- The shared IPC buffer as `Error::details` reads it: the label word of
the message tag, and the message registers `msg[i]`. -/
structure IPCBuffer where
  label : Nat
  msg : Nat → Nat

/-- `LookupFailureKind` of `error.rs`. -/
inductive LookupFailureKind where
  | invalidRoot
  | missingCapability (bits_remaining : Nat)
  | depthMismatch (bits_remaining bits_resolved : Nat)
  | guardMismatch (bits_remaining guard guard_size : Nat)
  deriving DecidableEq, Repr

/-- `ErrorDetails` of `error.rs`. -/
inductive ErrorDetails where
  | invalidArgument (which : Nat)
  | invalidCapability (which : Nat)
  | illegalOperation
  | rangeError (min max : Nat)
  | alignmentError
  | failedLookup (failed_for_source : Bool) (lookup_kind : LookupFailureKind)
  | truncatedMessage
  | deleteFirst
  | revokeFirst
  | notEnoughMemory (bytes_available : Nat)
  | tooMuchData
  | tooManyCaps
  deriving DecidableEq, Repr

/-- How a run of the decoder ends: a value, a failed `assert!` (panic), or
the undefined behaviour of `transmute`-ing a word with no matching enum
variant. -/
inductive Outcome (α : Type) where
  | ok (val : α)
  | panicked
  | undef
  deriving DecidableEq, Repr

/-- `LookupFailureKind::from_ipcbuf` of `error.rs`, line for line.  The
source first runs `assert!(kind > seL4_GuardMismatch, "Unknown lookup
failure type")` — note the direction of the comparison — and then
`transmute`s `kind` and matches on it; a `kind` with no variant of
`seL4_LookupFailureType` is undefined behaviour. -/
def LookupFailureKind.from_ipcbuf (buf : IPCBuffer) (type_idx details_idx : Nat) :
    Outcome (Option LookupFailureKind) :=
  let kind := buf.msg type_idx
  if kind > seL4_GuardMismatch then
    if kind = seL4_NoFailure then .ok none
    else if kind = seL4_InvalidRoot then .ok (some .invalidRoot)
    else if kind = seL4_MissingCapability then
      .ok (some (.missingCapability (buf.msg details_idx)))
    else if kind = seL4_DepthMismatch then
      .ok (some (.depthMismatch (buf.msg details_idx) (buf.msg (details_idx + 1))))
    else if kind = seL4_GuardMismatch then
      .ok (some (.guardMismatch (buf.msg details_idx) (buf.msg (details_idx + 1))
        (buf.msg (details_idx + 2))))
    else .undef
  else .panicked

/-- `Error::details` of `error.rs`, line for line.  In the
`GoOn::CheckIPCBuf` arm the source first runs `assert!(label >
seL4_NotEnoughMemory, "Unknown error type")` — again note the direction —
then `transmute`s the label and matches on it; a label with no variant of
`seL4_Error` is undefined behaviour.  The `seL4_FailedLookup` arm reads
`msg[0] == 1` and recurses through `from_ipcbuf`, turning its `None` into
an early `return None`. -/
def Error.details (e : Error) (buf : IPCBuffer) : Outcome (Option ErrorDetails) :=
  match e.goOn with
  | .TooMuchData => .ok (some .tooMuchData)
  | .TooManyCaps => .ok (some .tooManyCaps)
  | .CheckIPCBuf =>
    let label := buf.label
    if label > seL4_NotEnoughMemory then
      if label = seL4_NoError then .ok none
      else if label = seL4_InvalidArgument then .ok (some (.invalidArgument (buf.msg 0)))
      else if label = seL4_InvalidCapability then .ok (some (.invalidCapability (buf.msg 0)))
      else if label = seL4_IllegalOperation then .ok (some .illegalOperation)
      else if label = seL4_RangeError then .ok (some (.rangeError (buf.msg 0) (buf.msg 1)))
      else if label = seL4_AlignmentError then .ok (some .alignmentError)
      else if label = seL4_FailedLookup then
        match LookupFailureKind.from_ipcbuf buf 1 2 with
        | .ok (some s) => .ok (some (.failedLookup (buf.msg 0 == 1) s))
        | .ok none => .ok none
        | .panicked => .panicked
        | .undef => .undef
      else if label = seL4_TruncatedMessage then .ok (some .truncatedMessage)
      else if label = seL4_DeleteFirst then .ok (some .deleteFirst)
      else if label = seL4_RevokeFirst then .ok (some .revokeFirst)
      else if label = seL4_NotEnoughMemory then .ok (some (.notEnoughMemory (buf.msg 0)))
      else .undef
    else .panicked

/-- Modelled from the spec: `from_ipcbuf` with its assert in the direction
its own message and §4.5 item 5 intend — abort exactly for nested labels
outside the known lookup-failure taxonomy (`kind > seL4_GuardMismatch`),
decode every label inside it. -/
def LookupFailureKind.from_ipcbuf_intended (buf : IPCBuffer) (type_idx details_idx : Nat) :
    Outcome (Option LookupFailureKind) :=
  let kind := buf.msg type_idx
  if kind > seL4_GuardMismatch then .panicked
  else if kind = seL4_NoFailure then .ok none
  else if kind = seL4_InvalidRoot then .ok (some .invalidRoot)
  else if kind = seL4_MissingCapability then
    .ok (some (.missingCapability (buf.msg details_idx)))
  else if kind = seL4_DepthMismatch then
    .ok (some (.depthMismatch (buf.msg details_idx) (buf.msg (details_idx + 1))))
  else
    .ok (some (.guardMismatch (buf.msg details_idx) (buf.msg (details_idx + 1))
      (buf.msg (details_idx + 2))))

/-- Modelled from the spec: `Error::details` with both asserts in the
direction their messages and §4.5 item 5 intend — abort exactly for label
words outside the known taxonomy, decode every label inside it. -/
def Error.details_intended (e : Error) (buf : IPCBuffer) : Outcome (Option ErrorDetails) :=
  match e.goOn with
  | .TooMuchData => .ok (some .tooMuchData)
  | .TooManyCaps => .ok (some .tooManyCaps)
  | .CheckIPCBuf =>
    let label := buf.label
    if label > seL4_NotEnoughMemory then .panicked
    else if label = seL4_NoError then .ok none
    else if label = seL4_InvalidArgument then .ok (some (.invalidArgument (buf.msg 0)))
    else if label = seL4_InvalidCapability then .ok (some (.invalidCapability (buf.msg 0)))
    else if label = seL4_IllegalOperation then .ok (some .illegalOperation)
    else if label = seL4_RangeError then .ok (some (.rangeError (buf.msg 0) (buf.msg 1)))
    else if label = seL4_AlignmentError then .ok (some .alignmentError)
    else if label = seL4_FailedLookup then
      match LookupFailureKind.from_ipcbuf_intended buf 1 2 with
      | .ok (some s) => .ok (some (.failedLookup (buf.msg 0 == 1) s))
      | .ok none => .ok none
      | .panicked => .panicked
      | .undef => .undef
    else if label = seL4_TruncatedMessage then .ok (some .truncatedMessage)
    else if label = seL4_DeleteFirst then .ok (some .deleteFirst)
    else if label = seL4_RevokeFirst then .ok (some .revokeFirst)
    else .ok (some (.notEnoughMemory (buf.msg 0)))

/-- Modelled from the spec: `seL4_CapData` and its `set_Badge`/`get_Badge`
bit-field accessors live in the external `sel4-sys` crate, not in this
repository.  Per §6 the badge is a 32-bit sub-field of the address word,
treated as opaque and accessed only through this setter/getter pair, and
per §3 the pair round-trips every value in `[0, 2^32)`; the model stores
the field's 32-bit content. -/
structure seL4_CapData where
  badgeField : Nat

/-- Modelled from the spec: store a word into the 32-bit badge sub-field
(`seL4_CapData::set_Badge`). -/
def seL4_CapData.set_Badge (_bits : seL4_CapData) (v : Nat) : seL4_CapData :=
  ⟨v % 2 ^ 32⟩

/-- Modelled from the spec: read the badge sub-field
(`seL4_CapData::get_Badge`). -/
def seL4_CapData.get_Badge (bits : seL4_CapData) : Nat :=
  bits.badgeField

/-- `Badge` of `cspace.rs`. -/
structure Badge where
  bits : seL4_CapData

/-- `Badge::new` of `cspace.rs`: zero the `seL4_CapData`, then
`set_Badge(val as seL4_Word)` (`val` is a `u32`, so the cast to the wider
word preserves the value). -/
def Badge.new (val : Nat) : Badge :=
  ⟨seL4_CapData.set_Badge ⟨0⟩ val⟩

/-- `Badge::get_value` of `cspace.rs`: `get_Badge() as u32`. -/
def Badge.get_value (b : Badge) : Nat :=
  b.bits.get_Badge % 2 ^ 32

/-! Theorems. -/

/-- C1 (code bug): the claim says `decode` computes `leftover_bits =
word_bits - prefix_bits - guard_bits - radix_bits`; the source subtracts
`prefix_bits` twice and `radix_bits` never.  At word width 32, shape
`{guard_val 0, radix_bits 4, guard_bits 0, prefix_bits 0}` and word 16 the
source's `decode` yields `{prefix 1, guard 0, radix 0, leftover 0}`, while
the claim's split (`decodeSpec`) yields `{prefix 0, guard 0, radix 0,
leftover 16}`. -/
theorem decode_leftover_bits_bug :
    CNodeInfo.decode 32 ⟨0, 4, 0, 0⟩ 16 = ⟨1, 0, 0, 0⟩ ∧
    decodeSpec 32 ⟨0, 4, 0, 0⟩ 16 = ⟨0, 0, 0, 16⟩ ∧
    CNodeInfo.decode 32 ⟨0, 4, 0, 0⟩ 16 ≠ decodeSpec 32 ⟨0, 4, 0, 0⟩ 16 := by
  decide

/-- C2 (code bug): the round-trip law fails on the source.  At word width
32 and shape `{guard_val 0, radix_bits 1, guard_bits 0, prefix_bits 1}`
(so `prefix_bits + guard_bits + radix_bits = 2 ≤ 32`): the decoded address
`{prefix 1, guard 0, radix 1, leftover 0}` has every field inside its
declared width, yet `decode (encode d) = {prefix 0, guard 0, radix 0,
leftover 6} ≠ d`; and for the word `2 ^ 31`, `encode (decode word) = 4 ≠
2 ^ 31`. -/
theorem codec_roundtrip_bug :
    CNodeInfo.decode 32 ⟨0, 1, 0, 1⟩ (CNodeInfo.encode 32 ⟨0, 1, 0, 1⟩ ⟨1, 0, 1, 0⟩) =
      ⟨0, 0, 0, 6⟩ ∧
    (⟨0, 0, 0, 6⟩ : DecodedCPtr) ≠ ⟨1, 0, 1, 0⟩ ∧
    CNodeInfo.encode 32 ⟨0, 1, 0, 1⟩ (CNodeInfo.decode 32 ⟨0, 1, 0, 1⟩ (2 ^ 31)) = 4 ∧
    (4 : Nat) ≠ 2 ^ 31 := by
  decide

/-- C3 (amended): `Window::cptr_to(info, i)` returns `None` exactly when
`i ≥ num_slots`, and for `i < num_slots` returns `Some` of the encoding of
`{prefix: cnode.cptr, guard: guard_val, radix: first_slot_idx + i,
leftover: 0}`.  (The claim's further consequence — that the radix field of
the returned word equals `first_slot_idx + i` — fails on the source, see
the counterexample.) -/
theorem cptr_to_bounds_encode (w : Nat) (win : Window) (info : CNodeInfo) (i : Nat) :
    (win.cptr_to w info i = none ↔ win.num_slots ≤ i) ∧
    (i < win.num_slots →
      win.cptr_to w info i = some (info.encode w
        { pfx := win.cnode.cptr, guard := info.guard_val,
          radix := (win.first_slot_idx + i) % 2 ^ w, leftover := 0 })) := by
  constructor
  · by_cases h : win.num_slots ≤ i <;> simp [Window.cptr_to, ge_iff_le, h]
  · intro h
    rw [Window.cptr_to, if_neg (by omega)]

/-- C3 counterexample: at word width 32, shape `{guard_val 0, radix_bits 8,
guard_bits 4, prefix_bits 8}` and a window of 2 slots starting at slot 0,
`cptr_to` at `i = 1` returns the word 256, whose decoded radix field is 0,
not `first_slot_idx + i = 1`. -/
theorem cptr_to_radix_counterexample :
    Window.cptr_to 32 ⟨⟨0, 0, 0⟩, 0, 2⟩ ⟨0, 8, 4, 8⟩ 1 = some 256 ∧
    (CNodeInfo.decode 32 ⟨0, 8, 4, 8⟩ 256).radix ≠ 0 + 1 := by
  decide

/-- C4: with every retype call succeeding, `create` on windows of
`num_slots` 0, 1, 255, 256, 257, 512 and 600 issues respectively no call;
one call of 1; one call of 255; one call of 256; calls of 256 and 1; calls
of 256 and 256; calls of 256, 256 and 88 — each later call's starting slot
offset advanced by 256 — and returns success; in particular `num_slots = 0`
issues zero calls and succeeds and `num_slots = 256` issues exactly one
call. -/
theorem create_batch_counts (w u tag sz r c d f : Nat) (hw : f + 512 < 2 ^ w) :
    create w (fun _ => 0) u tag sz ⟨⟨r, c, d⟩, f, 0⟩ = ([], .ok) ∧
    create w (fun _ => 0) u tag sz ⟨⟨r, c, d⟩, f, 1⟩ =
      ([⟨u, tag, sz, r, c, d, f, 1⟩], .ok) ∧
    create w (fun _ => 0) u tag sz ⟨⟨r, c, d⟩, f, 255⟩ =
      ([⟨u, tag, sz, r, c, d, f, 255⟩], .ok) ∧
    create w (fun _ => 0) u tag sz ⟨⟨r, c, d⟩, f, 256⟩ =
      ([⟨u, tag, sz, r, c, d, f, 256⟩], .ok) ∧
    create w (fun _ => 0) u tag sz ⟨⟨r, c, d⟩, f, 257⟩ =
      ([⟨u, tag, sz, r, c, d, f, 256⟩, ⟨u, tag, sz, r, c, d, f + 256, 1⟩], .ok) ∧
    create w (fun _ => 0) u tag sz ⟨⟨r, c, d⟩, f, 512⟩ =
      ([⟨u, tag, sz, r, c, d, f, 256⟩, ⟨u, tag, sz, r, c, d, f + 256, 256⟩], .ok) ∧
    create w (fun _ => 0) u tag sz ⟨⟨r, c, d⟩, f, 600⟩ =
      ([⟨u, tag, sz, r, c, d, f, 256⟩, ⟨u, tag, sz, r, c, d, f + 256, 256⟩,
        ⟨u, tag, sz, r, c, d, f + 512, 88⟩], .ok) := by
  have h1 : (f + 256) % 2 ^ w = f + 256 := Nat.mod_eq_of_lt (by omega)
  have h2 : (f + 256 + 256) % 2 ^ w = f + 512 := by
    rw [Nat.mod_eq_of_lt (by omega)]
  refine ⟨?_, ?_, ?_, ?_, ?_, ?_, ?_⟩ <;>
    simp [create, createFrom, CONFIG_RETYPE_FAN_OUT_LIMIT, h1, h2]

/-- C4 witness: the batch-count theorem evaluated at word width 32 and a
window starting at slot 0. -/
theorem create_batch_counts_witness :
    create 32 (fun _ => 0) 0 0 0 ⟨⟨0, 0, 0⟩, 0, 0⟩ = ([], .ok) ∧
    create 32 (fun _ => 0) 0 0 0 ⟨⟨0, 0, 0⟩, 0, 1⟩ =
      ([⟨0, 0, 0, 0, 0, 0, 0, 1⟩], .ok) ∧
    create 32 (fun _ => 0) 0 0 0 ⟨⟨0, 0, 0⟩, 0, 255⟩ =
      ([⟨0, 0, 0, 0, 0, 0, 0, 255⟩], .ok) ∧
    create 32 (fun _ => 0) 0 0 0 ⟨⟨0, 0, 0⟩, 0, 256⟩ =
      ([⟨0, 0, 0, 0, 0, 0, 0, 256⟩], .ok) ∧
    create 32 (fun _ => 0) 0 0 0 ⟨⟨0, 0, 0⟩, 0, 257⟩ =
      ([⟨0, 0, 0, 0, 0, 0, 0, 256⟩, ⟨0, 0, 0, 0, 0, 0, 0 + 256, 1⟩], .ok) ∧
    create 32 (fun _ => 0) 0 0 0 ⟨⟨0, 0, 0⟩, 0, 512⟩ =
      ([⟨0, 0, 0, 0, 0, 0, 0, 256⟩, ⟨0, 0, 0, 0, 0, 0, 0 + 256, 256⟩], .ok) ∧
    create 32 (fun _ => 0) 0 0 0 ⟨⟨0, 0, 0⟩, 0, 600⟩ =
      ([⟨0, 0, 0, 0, 0, 0, 0, 256⟩, ⟨0, 0, 0, 0, 0, 0, 0 + 256, 256⟩,
        ⟨0, 0, 0, 0, 0, 0, 0 + 512, 88⟩], .ok) :=
  create_batch_counts 32 0 0 0 0 0 0 0 (by norm_num)

/-- Helper for C5: in the `create` loop, if the oracle succeeds on the
first `m` calls and fails on call `m` (0-indexed, counted from `k`), the
run issues exactly the first `m + 1` calls of the all-success schedule and
stops with `Err(Error(GoOn::CheckIPCBuf))`. -/
theorem createFrom_first_failure_aux (w : Nat) (sys : Nat → Nat) (u tag sz r c d : Nat) :
    ∀ num first k m,
      (∀ i, i < m → sys (k + i) = 0) → sys (k + m) ≠ 0 →
      m < (createFrom w (fun _ => 0) u tag sz r c d first num k).1.length →
      createFrom w sys u tag sz r c d first num k =
        ((createFrom w (fun _ => 0) u tag sz r c d first num k).1.take (m + 1),
          .err .CheckIPCBuf) := by
  intro num
  induction num using Nat.strong_induction_on with
  | _ num ih =>
    intro first k m h0 hm hlen
    by_cases h256 : CONFIG_RETYPE_FAN_OUT_LIMIT < num
    · rcases Nat.eq_zero_or_pos m with rfl | hmpos
      · have hk : sys k ≠ 0 := by simpa using hm
        rw [createFrom.eq_def w sys u tag sz r c d first num k, createFrom.eq_def w (fun _ => 0) u tag sz r c d first num k]
        simp [h256, hk]
      · obtain ⟨m', rfl⟩ : ∃ m', m = m' + 1 := ⟨m - 1, by omega⟩
        have hk : sys k = 0 := by simpa using h0 0 (by omega)
        rw [createFrom.eq_def w (fun _ => 0) u tag sz r c d first num k] at hlen
        simp only [h256, dif_pos, ne_eq] at hlen
        rw [createFrom.eq_def w sys u tag sz r c d first num k, createFrom.eq_def w (fun _ => 0) u tag sz r c d first num k]
        simp only [h256, dif_pos, ne_eq, hk]
        have harg : ∀ i, i < m' → sys (k + 1 + i) = 0 := by
          intro i hi
          have hh := h0 (i + 1) (by omega)
          have e : k + (i + 1) = k + 1 + i := by omega
          rwa [e] at hh
        have hm' : sys (k + 1 + m') ≠ 0 := by
          have e : k + 1 + m' = k + (m' + 1) := by omega
          rw [e]; exact hm
        have hlen' : m' < (createFrom w (fun _ => 0) u tag sz r c d
            ((first + CONFIG_RETYPE_FAN_OUT_LIMIT) % 2 ^ w)
            (num - CONFIG_RETYPE_FAN_OUT_LIMIT) (k + 1)).1.length := by
          simpa using hlen
        have hrec := ih (num - CONFIG_RETYPE_FAN_OUT_LIMIT)
          (by simp [CONFIG_RETYPE_FAN_OUT_LIMIT] at h256 ⊢; omega)
          ((first + CONFIG_RETYPE_FAN_OUT_LIMIT) % 2 ^ w) (k + 1) m' harg hm' hlen'
        simp [hrec, List.take_succ_cons]
    · by_cases hpos : 0 < num
      · rw [createFrom.eq_def w (fun _ => 0) u tag sz r c d first num k] at hlen
        simp only [h256, hpos, dif_neg, not_false_iff, if_pos] at hlen
        have hm0 : m = 0 := by
          simp at hlen
          omega
        subst hm0
        have hk : sys k ≠ 0 := by simpa using hm
        rw [createFrom.eq_def w sys u tag sz r c d first num k, createFrom.eq_def w (fun _ => 0) u tag sz r c d first num k]
        simp [h256, hpos, hk]
      · rw [createFrom.eq_def w (fun _ => 0) u tag sz r c d first num k] at hlen
        simp [h256, hpos] at hlen

/-- C5: if the `m`-th retype call of a `create` run (0-indexed) returns a
nonzero status and every earlier call returned 0, `create` returns
`Err(Error(GoOn::CheckIPCBuf))` at once: the calls issued are exactly the
first `m + 1` calls of the all-success schedule, so no further retype call
and no compensating call of any kind follows the failing one. -/
theorem create_first_failure (w : Nat) (sys : Nat → Nat) (u tag sz : Nat) (dest : Window)
    (m : Nat) (h0 : ∀ i, i < m → sys i = 0) (hm : sys m ≠ 0)
    (hlen : m < (create w (fun _ => 0) u tag sz dest).1.length) :
    create w sys u tag sz dest =
      ((create w (fun _ => 0) u tag sz dest).1.take (m + 1), .err .CheckIPCBuf) := by
  unfold create at hlen ⊢
  exact createFrom_first_failure_aux w sys u tag sz dest.cnode.root dest.cnode.cptr
    dest.cnode.depth dest.num_slots dest.first_slot_idx 0 m
    (fun i hi => by simpa using h0 i hi) (by simpa using hm) hlen

/-- C5 witness: with an oracle that fails the second call (index 1) of a
600-slot window, `create` issues exactly two calls and returns the
error. -/
theorem create_first_failure_witness :
    create 32 (fun i => if i = 1 then 7 else 0) 5 6 7 ⟨⟨1, 2, 3⟩, 0, 600⟩ =
      ((create 32 (fun _ => 0) 5 6 7 ⟨⟨1, 2, 3⟩, 0, 600⟩).1.take (1 + 1),
        .err .CheckIPCBuf) :=
  create_first_failure 32 (fun i => if i = 1 then 7 else 0) 5 6 7 ⟨⟨1, 2, 3⟩, 0, 600⟩ 1
    (by intro i hi; have h : i = 0 := by omega
        subst h; simp)
    (by simp)
    (by simp [create, createFrom, CONFIG_RETYPE_FAN_OUT_LIMIT])

/-- C6 (code bug): the claim says `Error::details` aborts exactly for
label words outside the known taxonomy.  The source's asserts compare the
wrong way (`assert!(label > seL4_NotEnoughMemory)`,
`assert!(kind > seL4_GuardMismatch)`): `details` panics on the in-taxonomy
label `seL4_RangeError`, while the out-of-taxonomy label 11 passes the
assert and reaches an unmatched `transmute` (undefined behaviour) instead
of aborting; the nested decoder likewise panics on the in-taxonomy kind
`seL4_GuardMismatch` and reaches undefined behaviour on kind 5. -/
theorem details_inverted_assert_bug :
    Error.details ⟨.CheckIPCBuf⟩ ⟨seL4_RangeError, fun _ => 0⟩ = .panicked ∧
    Error.details ⟨.CheckIPCBuf⟩ ⟨11, fun _ => 0⟩ = .undef ∧
    LookupFailureKind.from_ipcbuf ⟨seL4_FailedLookup, fun _ => seL4_GuardMismatch⟩ 1 2 =
      .panicked ∧
    LookupFailureKind.from_ipcbuf ⟨seL4_FailedLookup, fun _ => 5⟩ 1 2 = .undef := by
  decide

/-- C7 (code bug): on the scenario-B buffer (label `seL4_FailedLookup`,
`msg[0] = 1`, nested label `seL4_GuardMismatch` at `msg[1]`, and
`msg[2..4] = 3, 0xF, 4`) the source's `details` panics at its inverted
assert instead of decoding; with the asserts in the intended direction the
very same buffer decodes to `FailedLookup{failed_for_source: true,
GuardMismatch{bits_remaining: 3, guard: 0xF, guard_size: 4}}` as the claim
states. -/
theorem details_failed_lookup_guard_mismatch_bug :
    Error.details ⟨.CheckIPCBuf⟩
      ⟨seL4_FailedLookup, fun i =>
        if i = 0 then 1 else if i = 1 then seL4_GuardMismatch else
        if i = 2 then 3 else if i = 3 then 15 else if i = 4 then 4 else 0⟩ = .panicked ∧
    Error.details_intended ⟨.CheckIPCBuf⟩
      ⟨seL4_FailedLookup, fun i =>
        if i = 0 then 1 else if i = 1 then seL4_GuardMismatch else
        if i = 2 then 3 else if i = 3 then 15 else if i = 4 then 4 else 0⟩ =
      .ok (some (.failedLookup true (.guardMismatch 3 15 4))) := by
  decide

/-- C8 (code bug): on the scenario-A buffer (label `seL4_RangeError`,
`msg[0] = 5`, `msg[1] = 10`) the source's `details` panics at its inverted
assert instead of decoding; with the assert in the intended direction the
very same buffer decodes to `RangeError{min: 5, max: 10}` as the claim
states. -/
theorem details_range_error_bug :
    Error.details ⟨.CheckIPCBuf⟩
      ⟨seL4_RangeError, fun i => if i = 0 then 5 else if i = 1 then 10 else 0⟩ =
      .panicked ∧
    Error.details_intended ⟨.CheckIPCBuf⟩
      ⟨seL4_RangeError, fun i => if i = 0 then 5 else if i = 1 then 10 else 0⟩ =
      .ok (some (.rangeError 5 10)) := by
  decide

/-- C10 (code bug): the claim reads the `seL4_NoFailure => None` arm of
`from_ipcbuf` and the `None => return None` arm of `details` as reachable:
a buffer with label `seL4_FailedLookup` and nested label `seL4_NoFailure`
would be reported as "no error".  On the source as written that path is
cut off by the inverted assert — `details` panics on this buffer — while
with the asserts in the intended direction `details` indeed returns `None`
on it, as the claim describes. -/
theorem details_no_failure_bug :
    Error.details ⟨.CheckIPCBuf⟩
      ⟨seL4_FailedLookup, fun i => if i = 0 then 1 else 0⟩ = .panicked ∧
    Error.details_intended ⟨.CheckIPCBuf⟩
      ⟨seL4_FailedLookup, fun i => if i = 0 then 1 else 0⟩ = .ok none := by
  decide

/-- C9: `Badge::new(v).get_value() = v` for every 32-bit value `v`; the
pair performs nothing beyond storing into and reading back the badge
bit-field. -/
theorem badge_roundtrip (v : Nat) (h : v < 2 ^ 32) : (Badge.new v).get_value = v := by
  have h' : v < 4294967296 := by simpa using h
  simp [Badge.new, Badge.get_value, seL4_CapData.set_Badge, seL4_CapData.get_Badge,
    Nat.mod_eq_of_lt h']

/-- C9 witness: the badge round-trip at `v = 0xDEADBEEF`. -/
theorem badge_roundtrip_witness : (Badge.new 3735928559).get_value = 3735928559 :=
  badge_roundtrip 3735928559 (by norm_num)

end Sel4
